import Mathlib

/-!
Verification of the lazy-tensor IR code generator
(`tools/codegen/dest/lazy_ir.py`).

The generator is a pure text transformation: given a typed operator schema
(a "Schema View"), it emits C++ source fragments for (a) a lazy-graph node
class, (b) the dispatch function bridging eager calls into graph
construction, and (c) forward declarations of hand-written shape-inference
functions.  We embed the generator shallowly: Python f-strings become
explicit Lean string appends, `raise AssertionError` / failing `assert`
become `Except.error`, and the schema model (defined in modules outside the
repository snapshot) is reconstructed from the specification.

Note on braces: every literal `\x7b` / `\x7d` of the generated C++ text is
written with its hexadecimal escape inside Lean string literals.
-/

namespace LazyIrGen

/-- C++ type expression of an argument, mirroring the `BaseCType`,
`OptionalCType`, `VectorCType` constructors of `tools/codegen/api/types.py`
(that module is outside the snapshot; the spec describes the closed tag set
built from these three constructors).  `baseCT` carries the printed C++ type
name, as `BaseCType.type` does. -/
inductive CType where
  | baseCT (ty : String)
  | optionalCT (elem : CType)
  | vectorCT (elem : CType)
deriving DecidableEq, Repr

/-- Printed C++ type, mirroring the `cpp_type` methods of
`tools/codegen/api/types.py` (modelled from the spec; only used verbatim
inside emitted declarations). -/
def CType.cpp_type : CType → String
  | .baseCT ty => ty
  | .optionalCT e => "c10::optional<" ++ e.cpp_type ++ ">"
  | .vectorCT e => "::std::vector<" ++ e.cpp_type ++ ">"

/-- A named, typed argument of an operator schema (`NamedCType`). -/
structure NamedCType where
  name : String
  type : CType
deriving DecidableEq, Repr

/-- Printed name of the C++ graph-value type. -/
def valueT : String := "torch::lazy::Value"

/-- Modelled from the spec: `isValueType` of `tools/codegen/api/lazy.py`
(not under the snapshot).  An argument is a graph value ("value" tag) when
its underlying base type is the lazy graph-value type, looking through
optional and vector wrappers; everything else is plain scalar data. -/
def isValueType : CType → Bool
  | .baseCT ty => ty == valueT
  | .optionalCT e => isValueType e
  | .vectorCT e => isValueType e

/-- Modelled from the spec: the Schema View (`LazyIrSchema` of
`tools/codegen/api/lazy.py`, not under the snapshot).  It carries the node
class name, the operator name (`aten_name`) and its base (non-in-place)
name, the ordered typed argument list, the names of scalars promoted to
graph values (`wrapped_scalar_names`), the ordered return-type tags, and
the in-place flag (`schema.name.name.inplace`). -/
structure LazyIrSchema where
  node_name : String
  aten_name : String
  base_name : String
  args : List NamedCType
  wrapped_scalar_names : List String
  returns : List String
  inplace : Bool
deriving DecidableEq, Repr

/-- Modelled from the spec: `LazyIrSchema.filtered_types(values, scalars)`
returns the declared arguments in order, keeping graph-value arguments when
`values` is set and scalar arguments when `scalars` is set (value and
scalar arguments form a disjoint partition of the argument list). -/
def LazyIrSchema.filtered_types (schema : LazyIrSchema) (values : Bool) (scalars : Bool) :
    List NamedCType :=
  schema.args.filter (fun a => if isValueType a.type then values else scalars)

/-- Modelled from the spec: the slice of a `NativeFunction` this generator
consumes.  `schema` is `LazyIrSchema(f.func)`; `structured` and
`structured_delegate` come from the upstream operator registry;
`dispatch_args` is the dispatcher-style argument declaration list produced
by the external `dispatcher.arguments` collaborator; `sig_repr` and
`sig_decl` stand for the external `kernel_signature` collaborator (its
printed form, and its declaration text given a function name); and
`lowering_body` is the literal text returned by the external
`ts_lowering_body` collaborator. -/
structure NativeFunction where
  schema : LazyIrSchema
  structured : Bool
  structured_delegate : Option String
  dispatch_args : List String
  sig_repr : String
  sig_decl : String → String
  lowering_body : String

/-- Shared `AssertionError` message of the type-dispatch catch-alls. -/
def msg_todo : String := "TODO not sure if there are other valid types to handle here"

/-- Python's `str.join`: the separator interposed between consecutive
items, empty string on the empty list. -/
def pyJoin (sep : String) : List String → String
  | [] => ""
  | [x] => x
  | x :: y :: ys => x ++ sep ++ pyJoin sep (y :: ys)

/-- Effectful map over a list, stopping at the first failure (a Python
list comprehension propagates the first exception raised by its body). -/
def mapExcept {α β : Type} (f : α → Except String β) : List α → Except String (List β)
  | [] => Except.ok []
  | a :: as => do
      let b ← f a
      let bs ← mapExcept f as
      Except.ok (b :: bs)

/-- A single comma, the separator of the structured multi-output shape
list (lazy_ir.py line 84). -/
def comma_str : String := ","

/-- Transcribes `lazy_value_string_from_optionals` (lazy_ir.py lines
12-26).  A non-value argument falls off the end of the Python function,
returning `None`; we model that implicit fall-through as `Except.ok none`. -/
def lazy_value_string_from_optionals (arg : NamedCType) : Except String (Option String) :=
  if isValueType arg.type then
    match arg.type with
    | .baseCT _ =>
        Except.ok <| some <| "lazy_" ++ arg.name ++ ".GetIrValue()"
    | .optionalCT _ =>
        Except.ok <| some <|
          "lazy_" ++ arg.name ++ " ? " ++
          "lazy_" ++ arg.name ++ ".GetIrValue() : " ++
          "torch::lazy::Value()"
    | _ => Except.error msg_todo
  else
    Except.ok none

/-- Transcribes `node_ctor_arg_rvalue_string` (lazy_ir.py lines 28-58). -/
def node_ctor_arg_rvalue_string (arg : NamedCType) (schema : LazyIrSchema) :
    Except String String :=
  if isValueType arg.type then
    match arg.type with
    | .baseCT _ =>
        if schema.wrapped_scalar_names.contains arg.name then
          Except.ok <|
            "torch::lazy::LazyGraphExecutor::Get()->GetIrValueForScalarFromCodegen(" ++
            arg.name ++ ")"
        else
          Except.ok <| "lazy_" ++ arg.name ++ ".GetIrValue()"
    | .optionalCT _ =>
        if schema.wrapped_scalar_names.contains arg.name then
          Except.ok <|
            arg.name ++ " ? " ++
            "c10::make_optional(torch::lazy::LazyGraphExecutor::Get()->GetIrValueForScalarFromCodegen(*" ++
            arg.name ++ ")) : " ++ "c10::nullopt"
        else
          Except.ok <|
            "lazy_" ++ arg.name ++ " ? " ++
            "c10::make_optional(lazy_" ++ arg.name ++ ".GetIrValue()) : " ++
            "c10::nullopt"
    | _ => Except.error msg_todo
  else
    match arg.type with
    | .vectorCT (.baseCT elemTy) =>
        Except.ok <|
          "std::vector<" ++ elemTy ++ ">(" ++ arg.name ++ ".begin(), " ++
          arg.name ++ ".end())"
    | .optionalCT (.vectorCT (.baseCT elemTy)) =>
        Except.ok <| "torch::lazy::ToOptionalVector<" ++ elemTy ++ ">(" ++ arg.name ++ ")"
    | _ => Except.ok arg.name

/-- Separator used when joining node-constructor argument expressions
(lazy_ir.py line 65: a comma, a newline, and thirty spaces). -/
def node_ctor_sep : String := ",\n                              "

/-- Transcribes `node_ctor_inputs` (lazy_ir.py lines 60-65). -/
def node_ctor_inputs (schema : LazyIrSchema) : Except String String := do
  let node_ctor_values ← mapExcept (fun arg => node_ctor_arg_rvalue_string arg schema)
    (schema.filtered_types true true)
  Except.ok <|
    pyJoin node_ctor_sep (node_ctor_values ++ [r"node_hash", r"dag_hash"])

/-- Transcribes `missing_interned_strings` (lazy_ir.py lines 69-71). -/
def missing_interned_strings : List String := [r"sigmoid_backward"]

/-- Transcribes `aten_symbol` (lazy_ir.py lines 68-74). -/
def aten_symbol (schema : LazyIrSchema) : String :=
  if missing_interned_strings.contains schema.aten_name then
    "c10::Symbol::fromQualString(\"aten::" ++ schema.aten_name ++ "\")"
  else
    "at::aten::" ++ schema.aten_name

/-- Separator for comma-separated argument lists. -/
def comma_space : String := ", "

/-- Separator joining member initializers (lazy_ir.py line 127). -/
def init_sep : String := ",\n        "

/-- Separator of four-space-indented emitted lines. -/
def nl4 : String := "\n    "

/-- Separator of two-space-indented emitted lines. -/
def nl2 : String := "\n  "

/-- Transcribes the `shape_decl` property of `ComputeShapeSignature`
(lazy_ir.py lines 272-290): the forward declaration of the hand-written
shape function, named after the base (non-in-place) operator name with the
dispatcher-style argument declarations. -/
def ComputeShapeSignature.shape_decl (f : NativeFunction) : String :=
  "std::vector<Shape> compute_shape_" ++ f.schema.base_name ++ "(" ++
  pyJoin comma_space f.dispatch_args ++ ")"

/-- Transcribes the `shape_call` property of `ComputeShapeSignature`
(lazy_ir.py lines 280, 285-286, 292-294): the call to the hand-written
shape function with the filtered argument names. -/
def ComputeShapeSignature.shape_call (f : NativeFunction) : String :=
  "torch_lazy_tensors::ir::ops::compute_shape_" ++ f.schema.base_name ++ "(" ++
  pyJoin comma_space ((f.schema.filtered_types true true).map (fun t => t.name)) ++ ")"

/-- Transcribes `this_shape` (lazy_ir.py lines 82-83). -/
def this_shape (i : Nat) : String :=
  "Shape(std::get<" ++ toString i ++ ">(out_meta).scalar_type(), std::get<" ++
  toString i ++ ">(out_meta).sizes().vec())"

/-- Transcribes the `meta_out` assignment of `cached_shape_inference`
(lazy_ir.py lines 80-85). -/
def meta_out_str (returns_length : Nat) : String :=
  if returns_length > 1 then
    "cached_shapes = shape_cache->Add(dag_hash, std::make_shared<std::vector<Shape>>(std::initializer_list<Shape>\x7b" ++
    pyJoin comma_str ((List.range returns_length).map this_shape) ++ "\x7d));"
  else
    "cached_shapes = shape_cache->Add(dag_hash, std::make_shared<std::vector<Shape>>(std::initializer_list<Shape>\x7bShape(out_meta.scalar_type(), out_meta.sizes().vec())\x7d));"

/-- Transcribes the `shapes_body` strings of `cached_shape_inference`
(lazy_ir.py lines 87-95): the cache-miss branch, calling either the
structured meta kernel or the hand-written shape function. -/
def shapes_body_str (func : NativeFunction) (schema : LazyIrSchema) (returns_length : Nat)
    (all_types : List NamedCType) : String :=
  if func.structured || func.structured_delegate.isSome then
    "\n            auto out_meta = at::meta::" ++ schema.aten_name ++ "(" ++
    pyJoin comma_space (all_types.map (fun t => t.name)) ++ ");\n            " ++
    meta_out_str returns_length ++ "\n"
  else
    "\n            cached_shapes = shape_cache->Add(dag_hash, std::make_shared<std::vector<Shape>>(" ++
    ComputeShapeSignature.shape_call func ++ "));\n"

/-- Transcribes `cached_shape_inference` (lazy_ir.py lines 76-105): the
always-emitted cache wrapper around the per-operation shape computation. -/
def cached_shape_inference (func : NativeFunction) (schema : LazyIrSchema)
    (returns_length : Nat) (all_types : List NamedCType) : String :=
  "\n        auto shape_cache = torch::lazy::GetShapeCache();\n        auto cached_shapes = shape_cache->Get(dag_hash);\n        if (cached_shapes == nullptr) \x7b" ++
  shapes_body_str func schema returns_length all_types ++
  "\n        \x7d\n        auto& shapes = *cached_shapes;\n        TORCH_INTERNAL_ASSERT(shapes.size() == " ++
  toString returns_length ++ ");\n"

/-- Transcribes the loop body of `lazy_tensor_decls` (lazy_ir.py lines
190-207), producing the list of handle declarations before joining. -/
def lazy_tensor_decl_list (value_types : List NamedCType) (tensor_class : String)
    (schema : LazyIrSchema) : Except String (List String) :=
  match value_types with
  | [] => Except.ok []
  | t :: ts =>
    if schema.wrapped_scalar_names.contains t.name then
      lazy_tensor_decl_list ts tensor_class schema
    else
      match t.type with
      | .baseCT _ => do
          let rest ← lazy_tensor_decl_list ts tensor_class schema
          let decl := tensor_class ++ " lazy_" ++ t.name ++
            " = torch::lazy::GetLtcTensorOrCreateForWrappedNumber(" ++ t.name ++ ", *device);"
          Except.ok (decl :: rest)
      | .optionalCT _ => do
          let rest ← lazy_tensor_decl_list ts tensor_class schema
          let decl := "    " ++ tensor_class ++ " lazy_" ++ t.name ++
            " = torch::lazy::TryGetLtcTensor(" ++ t.name ++ ".value_or(at::Tensor()));"
          Except.ok (decl :: rest)
      | _ => Except.error msg_todo

/-- Transcribes `lazy_tensor_decls` (lazy_ir.py lines 190-207). -/
def lazy_tensor_decls (value_types : List NamedCType) (tensor_class : String)
    (schema : LazyIrSchema) : Except String String :=
  (lazy_tensor_decl_list value_types tensor_class schema).map (pyJoin nl4)

/-- Transcribes the `node_hash` line of the dispatch emitter (lazy_ir.py
lines 231-233): the operator identity in its direct interned form followed
by every scalar argument name, in declaration order. -/
def node_hash_str (schema : LazyIrSchema) : String :=
  let ident := "static_cast<uint32_t>(at::aten::" ++ schema.aten_name ++ ")"
  let hashes := ident :: (schema.filtered_types false true).map (fun t => t.name)
  "torch::lazy::hash_t node_hash = torch::lazy::MHash(" ++
  pyJoin comma_space hashes ++ ");"

/-- Message standing for the `TypeError` Python's `str.join` raises when an
item is `None` (the implicit fall-through of
`lazy_value_string_from_optionals`). -/
def msg_join_none : String := "TypeError: sequence item: expected str instance, NoneType found"

/-- Transcribes the `ir_values` comprehension of the dispatch emitter
(lazy_ir.py line 234): the bridge-value form of every graph-value operand
that is not a promoted scalar, in declaration order. -/
def dag_ir_values (schema : LazyIrSchema) : Except String (List String) := do
  let opts ← mapExcept lazy_value_string_from_optionals
      ((schema.filtered_types true false).filter
        (fun v => !(schema.wrapped_scalar_names.contains v.name)))
  mapExcept (fun o => match o with
    | some s => Except.ok s
    | none => Except.error msg_join_none) opts

/-- Transcribes the `dag_hash` line of the dispatch emitter (lazy_ir.py
line 235). -/
def dag_hash_str (schema : LazyIrSchema) : Except String String :=
  (dag_ir_values schema).map (fun ivs =>
    "torch::lazy::hash_t dag_hash = torch::lazy::OperandHashes(\x7b" ++
    pyJoin comma_space ivs ++ "\x7d, node_hash);")

/-- Transcribes the single-output bridge string (lazy_ir.py line 245). -/
def single_bridge (first_name : String) : String :=
  "auto result = torch::lazy::CreateAtenFromLtcTensor(torch::lazy::LazyTensor::Create(std::move(node), lazy_" ++
  first_name ++ ".GetDevice()));"

/-- Transcribes the multi-output bridge string (lazy_ir.py lines 247-251). -/
def multi_bridge (tensor_class : String) (returns_length : Nat) (first_name : String) : String :=
  "std::vector<" ++ tensor_class ++ "> lazy_tensors;\n        for (int i = 0; i < " ++
  toString returns_length ++ "; i++) \x7b\n            lazy_tensors.push_back(torch::lazy::LazyTensor::Create(torch::lazy::Value(node, i), lazy_" ++
  first_name ++ ".GetDevice()));\n        \x7d\n        auto result = torch::lazy::TupleAtenFromLtcTensors<" ++
  toString returns_length ++ ">(lazy_tensors);"

/-- Transcribes the in-place bridge string (lazy_ir.py lines 255-256). -/
def inplace_bridge (first_name : String) : String :=
  "lazy_" ++ first_name ++ ".SetInPlaceIrValue(node);\n        auto& result = " ++
  first_name ++ ";"

/-- Message of the in-place arity assertion (lazy_ir.py lines 253-254). -/
def msg_inplace_arity : String :=
  "We assumed there was no such case where an op is an in-place variant and has tuple outputs."

/-- Transcribes the bridge selection of the dispatch emitter (lazy_ir.py
lines 245-256): start from the single-output form, replace it by the
multi-output loop when the declared return count exceeds one, and for
in-place operations assert a single return and use the in-place form. -/
def bridge_for (tensor_class : String) (schema : LazyIrSchema) (returns_length : Nat)
    (first_name : String) : Except String String :=
  let bridge0 := single_bridge first_name
  let bridge1 :=
    if returns_length > 1 then multi_bridge tensor_class returns_length first_name
    else bridge0
  if schema.inplace then
    if returns_length = 1 then Except.ok (inplace_bridge first_name)
    else Except.error msg_inplace_arity
  else Except.ok bridge1

/-- Transcribes `GenLazyNativeFuncDefinition`'s configuration (lazy_ir.py
lines 209-213). -/
structure GenLazyNativeFuncDefinition where
  class_method_name : String
  backend_index : String
  tensor_class : String

/-- Transcribes the `get_device_str` line (lazy_ir.py lines 226-227). -/
def get_device_str (schema : LazyIrSchema) : String :=
  "auto device = torch::lazy::GetBackendDevice(" ++
  pyJoin comma_space ((schema.filtered_types true false).map (fun t => t.name)) ++ ");"

/-- Transcribes the `node_str` assignment (lazy_ir.py lines 240-241). -/
def node_str (schema : LazyIrSchema) (node_ctor_input_str : String) : String :=
  "auto node = torch::lazy::MakeNode<ir::ops::" ++ schema.node_name ++ ">(" ++
  node_ctor_input_str ++
  ",\n                                                                                      std::move(shapes));"

/-- Transcribes the final f-string of `GenLazyNativeFuncDefinition.__call__`
(lazy_ir.py lines 259-270), assembled from the already-computed fallible
pieces (handle declarations, node-constructor inputs, dag-hash line, bridge
string). -/
def emitted_text (g : GenLazyNativeFuncDefinition) (func : NativeFunction)
    (lazy_tensor_decls_str node_ctor_input_str dag_hash bridge_str : String) : String :=
  let schema := func.schema
  let fn_name := g.class_method_name ++ "::" ++ schema.aten_name
  "    " ++ func.sig_decl fn_name ++ " \x7b\n        TORCH_LAZY_FN_COUNTER(\"lazy::\");\n        " ++
  get_device_str schema ++ "\n        " ++
  lazy_tensor_decls_str ++ "\n        " ++
  node_hash_str schema ++ "\n        " ++ dag_hash ++ "\n        " ++
  cached_shape_inference func schema schema.returns.length (schema.filtered_types true true) ++
  "\n        " ++
  node_str schema node_ctor_input_str ++ "\n        " ++
  bridge_str ++ "\n        return result;\n    \x7d;\n\n    "

/-- Transcribes `GenLazyNativeFuncDefinition.__call__` (lazy_ir.py lines
215-270), in the source's evaluation order: handle declarations and
node-constructor inputs (both fallible on unsupported type shapes), the two
hash lines, the missing-value-type assertion, then the bridge selection
with its in-place arity assertion. -/
def GenLazyNativeFuncDefinition.call (g : GenLazyNativeFuncDefinition)
    (func : NativeFunction) : Except String (List String) := do
  let schema := func.schema
  let value_types := schema.filtered_types true false
  let lazy_tensor_decls_str ← lazy_tensor_decls value_types g.tensor_class schema
  let node_ctor_input_str ← node_ctor_inputs schema
  let dag_hash ← dag_hash_str schema
  match value_types with
  | [] => Except.error <| "Only supporting tensor ops so far, none found in " ++ func.sig_repr
  | first_tensor :: _ => do
    let bridge_str ← bridge_for g.tensor_class schema schema.returns.length first_tensor.name
    Except.ok [emitted_text g func lazy_tensor_decls_str node_ctor_input_str dag_hash bridge_str]

/-- Transcribes `LazyIR`'s configuration (lazy_ir.py lines 107-110). -/
structure LazyIR where
  backend_index : String
  node_base : String

/-- Transcribes the value-argument loop of `LazyIR.gen` (lazy_ir.py lines
130-139), producing the base-constructor argument expressions together with
the names of the optional graph-value arguments, in declaration order. -/
def base_ctor_and_optionals : List NamedCType → Except String (List String × List String)
  | [] => Except.ok ([], [])
  | t :: ts =>
    match t.type with
    | .baseCT _ => do
        let (bs, os) ← base_ctor_and_optionals ts
        Except.ok (t.name :: bs, os)
    | .optionalCT _ => do
        let (bs, os) ← base_ctor_and_optionals ts
        let e := t.name ++ ".value_or(kNullValue)"
        Except.ok (e :: bs, t.name :: os)
    | _ => Except.error msg_todo

/-- Transcribes one element of `members_to_string` (lazy_ir.py lines
143-152): the `ToString` line for one scalar member, with the
null-rendering branch for optional scalars. -/
def member_to_string (t : NamedCType) : String :=
  match t.type with
  | .optionalCT _ =>
      "if (" ++ t.name ++ ".has_value()) \x7b\n    ss << \", " ++ t.name ++
      "=\" << " ++ t.name ++ ".value();\n\x7d else \x7b\n    ss << \", " ++ t.name ++
      "=null\";\n\x7d"
  | _ => "ss << \", " ++ t.name ++ "=\" << " ++ t.name ++ ";"

/-- Transcribes `LazyIR.gen` (lazy_ir.py lines 117-187): the full node
class declaration for one operation. -/
def LazyIR.gen (self : LazyIR) (f : NativeFunction) : Except String (List String) := do
  let schema := f.schema
  let all_types := schema.filtered_types true true
  let value_types := schema.filtered_types true false
  let scalar_types := schema.filtered_types false true
  let ctor_hash_args := "torch::lazy::hash_t node_hash, torch::lazy::hash_t dag_hash"
  let node_ctor_args := pyJoin comma_space
    ((all_types.map (fun i => "const " ++ i.type.cpp_type ++ "& " ++ i.name)) ++ [ctor_hash_args])
  let scalar_initializers := pyJoin init_sep
    (scalar_types.map (fun t => t.name ++ "(" ++ t.name ++ ")"))
  let comma_nl := ",\n"
  let comma_if_scalar_initializers := if 0 < scalar_initializers.length then comma_nl else ""
  let scalar_decls := pyJoin nl2
    (scalar_types.map (fun t => t.type.cpp_type ++ " " ++ t.name ++ ";"))
  let (base_ctor_value_args_list, optional_values) ← base_ctor_and_optionals value_types
  let base_ctor_value_args := pyJoin comma_space base_ctor_value_args_list
  let has_optional_decls := pyJoin nl2
    (optional_values.map (fun v => "bool has_" ++ v ++ ": 1;"))
  let has_optional_defs := pyJoin nl4
    (optional_values.map (fun v => "has_" ++ v ++ " = !!" ++ v ++ ";"))
  let members_to_string_str := pyJoin nl4 (scalar_types.map member_to_string)
  let text :=
    "class " ++ schema.node_name ++ " : public " ++ self.node_base ++ " \x7b\n public:\n  " ++
    schema.node_name ++ "(" ++ node_ctor_args ++ ", std::vector<Shape>&& shapes)\n      : " ++
    self.node_base ++ "(torch::lazy::OpKind(" ++ aten_symbol schema ++ "),\n              \x7b" ++
    base_ctor_value_args ++ "\x7d, std::move(shapes),\n              /* num_outputs */ " ++
    toString schema.returns.length ++ ",\n              node_hash,\n              dag_hash)" ++
    comma_if_scalar_initializers ++ "\n        " ++ scalar_initializers ++
    "\n\n  \x7b\n    " ++ has_optional_defs ++
    "\n  \x7d\n\n  std::string ToString() const override \x7b\n    std::stringstream ss;\n    ss << TsNode::ToString();\n    " ++
    members_to_string_str ++
    "\n    return ss.str();\n  \x7d\n\n  torch::lazy::TSOpVector Lower(std::shared_ptr<torch::jit::GraphFunction> function,\n                   torch::lazy::TSLoweringContext* loctx) const override \x7b\n    " ++
    f.lowering_body ++ "\n  \x7d\n\n  " ++
    scalar_decls ++ "\n  " ++ has_optional_decls ++ "\n\n\x7d;\n\n"
  Except.ok [text]

/-- Transcribes `GenLazyShapeInferenceDefinition`'s configuration
(lazy_ir.py lines 297-300). -/
structure GenLazyShapeInferenceDefinition where
  backend_index : String
  tensor_class : String

/-- Transcribes `GenLazyShapeInferenceDefinition.__call__` (lazy_ir.py
lines 302-318): the `compute_shape_<base_name>` forward declaration is
emitted only for operations that are neither structured nor delegating to a
structured kernel; otherwise the fragment list is empty. -/
def GenLazyShapeInferenceDefinition.call (self : GenLazyShapeInferenceDefinition)
    (f : NativeFunction) : Except String (List String) := do
  let schema := f.schema
  let value_types := schema.filtered_types true false
  let _ ← lazy_tensor_decls value_types self.tensor_class schema
  let _ ← node_ctor_inputs schema
  if !f.structured && f.structured_delegate.isNone then
    Except.ok [ComputeShapeSignature.shape_decl f ++ ";"]
  else
    Except.ok []

/-! Spec-side definitions, used only to compare the source's behaviour
against the specification's words. -/

/-- Follows the spec's words (§3, claim C1): the closed set of recognized
type tags — plain value, optional value, vector-of-plain, and
optional-vector-of-plain. -/
def inClosedTagSet : CType → Bool
  | .baseCT _ => true
  | .optionalCT (.baseCT _) => true
  | .vectorCT (.baseCT _) => true
  | .optionalCT (.vectorCT (.baseCT _)) => true
  | _ => false

/-- Follows the spec's words (claim C2): a `dag_hash` line mixing
`node_hash` with the bridge-value form of every graph-value operand —
including promoted scalars, which the source excludes. -/
def dag_hash_all_operands (schema : LazyIrSchema) : Except String String := do
  let opts ← mapExcept lazy_value_string_from_optionals (schema.filtered_types true false)
  let ivs ← mapExcept (fun o => match o with
    | some s => Except.ok s
    | none => Except.error msg_join_none) opts
  Except.ok <|
    "torch::lazy::hash_t dag_hash = torch::lazy::OperandHashes(\x7b" ++
    pyJoin comma_space ivs ++ "\x7d, node_hash);"

/-- The constructor-argument expression the node-class emitter forwards to
the base class for one graph-value argument: the bare name for a plain
value, `name.value_or(kNullValue)` for an optional value (claim C8). -/
def base_ctor_form (t : NamedCType) : String :=
  match t.type with
  | .optionalCT _ => t.name ++ ".value_or(kNullValue)"
  | _ => t.name

/-- Whether an argument's type is optional at the top level. -/
def is_optional_type (t : NamedCType) : Bool :=
  match t.type with
  | .optionalCT _ => true
  | _ => false

/-- Tail form of a Python join: the separator before every item. -/
def joinTail (sep : String) : List String → String
  | [] => ""
  | x :: xs => sep ++ x ++ joinTail sep xs

/-! Helper lemmas. -/

theorem pyJoin_cons (sep : String) (x : String) (xs : List String) :
    pyJoin sep (x :: xs) = x ++ joinTail sep xs := by
  induction xs generalizing x with
  | nil => simp [pyJoin, joinTail]
  | cons y ys ih =>
      rw [pyJoin, ih y]
      simp [joinTail, String.append_assoc]

theorem mapExcept_exists_ok {α β : Type} (f : α → Except String β) (l : List α)
    (h : ∀ a ∈ l, ∃ b, f a = Except.ok b) : ∃ bs, mapExcept f l = Except.ok bs := by
  induction l with
  | nil => exact ⟨[], rfl⟩
  | cons a as ih =>
      obtain ⟨b, hb⟩ := h a (by simp)
      obtain ⟨bs, hbs⟩ := ih (fun x hx => h x (by simp [hx]))
      exact ⟨b :: bs, by simp [mapExcept, hb, hbs, Bind.bind, Except.bind]⟩

theorem node_ctor_arg_scalar_ok (arg : NamedCType) (schema : LazyIrSchema)
    (h : isValueType arg.type = false) :
    ∃ s, node_ctor_arg_rvalue_string arg schema = Except.ok s := by
  obtain ⟨n, ty⟩ := arg
  simp only at h
  match ty, h with
  | .baseCT t, h => exact ⟨n, by simp [node_ctor_arg_rvalue_string, h]⟩
  | .optionalCT (.baseCT t), h =>
      exact ⟨n, by simp [node_ctor_arg_rvalue_string, h]⟩
  | .optionalCT (.optionalCT e), h =>
      exact ⟨n, by simp [node_ctor_arg_rvalue_string, h]⟩
  | .optionalCT (.vectorCT (.baseCT t)), h =>
      refine ⟨"torch::lazy::ToOptionalVector<" ++ t ++ ">(" ++ n ++ ")", ?_⟩
      simp [node_ctor_arg_rvalue_string, h]
  | .optionalCT (.vectorCT (.optionalCT e)), h =>
      exact ⟨n, by simp [node_ctor_arg_rvalue_string, h]⟩
  | .optionalCT (.vectorCT (.vectorCT e)), h =>
      exact ⟨n, by simp [node_ctor_arg_rvalue_string, h]⟩
  | .vectorCT (.baseCT t), h =>
      refine ⟨"std::vector<" ++ t ++ ">(" ++ n ++ ".begin(), " ++ n ++ ".end())", ?_⟩
      simp [node_ctor_arg_rvalue_string, h]
  | .vectorCT (.optionalCT e), h =>
      exact ⟨n, by simp [node_ctor_arg_rvalue_string, h]⟩
  | .vectorCT (.vectorCT e), h =>
      exact ⟨n, by simp [node_ctor_arg_rvalue_string, h]⟩

theorem base_ctor_and_optionals_ok (ts : List NamedCType) (bs os : List String)
    (h : base_ctor_and_optionals ts = Except.ok (bs, os)) :
    bs = ts.map base_ctor_form ∧
    os = (ts.filter is_optional_type).map NamedCType.name := by
  induction ts generalizing bs os with
  | nil =>
      simp [base_ctor_and_optionals] at h
      simp [h.1, h.2]
  | cons t ts ih =>
      obtain ⟨n, ty⟩ := t
      match ty with
      | .baseCT b =>
          cases hrec : base_ctor_and_optionals ts with
          | error e =>
              rw [base_ctor_and_optionals] at h
              simp [hrec, Bind.bind, Except.bind] at h
          | ok p =>
              rw [base_ctor_and_optionals] at h
              simp [hrec, Bind.bind, Except.bind] at h
              obtain ⟨hb, ho⟩ := ih p.1 p.2 (by rw [hrec])
              simp [← h.1, ← h.2, hb, ho, base_ctor_form, is_optional_type]
      | .optionalCT e =>
          cases hrec : base_ctor_and_optionals ts with
          | error er =>
              rw [base_ctor_and_optionals] at h
              simp [hrec, Bind.bind, Except.bind] at h
          | ok p =>
              rw [base_ctor_and_optionals] at h
              simp [hrec, Bind.bind, Except.bind] at h
              obtain ⟨hb, ho⟩ := ih p.1 p.2 (by rw [hrec])
              simp [← h.1, ← h.2, hb, ho, base_ctor_form, is_optional_type]
      | .vectorCT e =>
          rw [base_ctor_and_optionals] at h
          simp at h

/-! Concrete example inputs, used by counterexamples and witnesses. -/

/-- A plain graph-value argument named `self`. -/
def argSelf : NamedCType := ⟨r"self", CType.baseCT valueT⟩

/-- A plain graph-value argument named `other`. -/
def argOther : NamedCType := ⟨r"other", CType.baseCT valueT⟩

/-- A plain scalar argument named `alpha`. -/
def argAlpha : NamedCType := ⟨r"alpha", CType.baseCT (r"at::Scalar")⟩

/-- A plain scalar argument named `beta`. -/
def argBeta : NamedCType := ⟨r"beta", CType.baseCT (r"at::Scalar")⟩

/-- An optional graph-value argument named `bias`. -/
def argBias : NamedCType := ⟨r"bias", CType.optionalCT (CType.baseCT valueT)⟩

/-- A scalar argument of a nested vector shape, outside the spec's closed
tag set. -/
def argNested : NamedCType :=
  ⟨r"weights", CType.vectorCT (CType.vectorCT (CType.baseCT (r"int64_t")))⟩

/-- A graph-value argument of vector shape (the one shape both expression
builders reject). -/
def argValueVec : NamedCType := ⟨r"tensors", CType.vectorCT (CType.baseCT valueT)⟩

/-- A minimal schema with no arguments. -/
def schemaEmpty : LazyIrSchema := ⟨r"Node", r"op", r"op", [], [], [r"at::Tensor"], false⟩

/-- The spec's concrete scenario: `add(self: value, other: value,
alpha: scalar)`, one return, not in-place. -/
def addSchema : LazyIrSchema :=
  ⟨r"Add", r"add", r"add", [argSelf, argOther, argAlpha], [], [r"at::Tensor"], false⟩

/-- Like `addSchema` but with `other` promoted to a graph value from a
scalar (listed in `wrapped_scalar_names`). -/
def wrappedSchema : LazyIrSchema :=
  ⟨r"Add", r"add", r"add", [argSelf, argOther], [r"other"], [r"at::Tensor"], false⟩

/-- Scalars declared in order `alpha`, `beta`. -/
def schemaScalarsAB : LazyIrSchema :=
  ⟨r"Op", r"op", r"op", [argSelf, argAlpha, argBeta], [], [r"at::Tensor"], false⟩

/-- Scalars declared in order `beta`, `alpha`. -/
def schemaScalarsBA : LazyIrSchema :=
  ⟨r"Op", r"op", r"op", [argSelf, argBeta, argAlpha], [], [r"at::Tensor"], false⟩

/-- Graph values declared in order `self`, `other`. -/
def schemaValuesSO : LazyIrSchema :=
  ⟨r"Op", r"op", r"op", [argSelf, argOther], [], [r"at::Tensor"], false⟩

/-- Graph values declared in order `other`, `self`. -/
def schemaValuesOS : LazyIrSchema :=
  ⟨r"Op", r"op", r"op", [argOther, argSelf], [], [r"at::Tensor"], false⟩

/-- The operator whose interned symbol is missing upstream. -/
def sigmoidSchema : LazyIrSchema :=
  ⟨r"SigmoidBackward", r"sigmoid_backward", r"sigmoid_backward", [argSelf], [],
   [r"at::Tensor"], false⟩

/-- The spec's concrete in-place scenario: `relu_(self: value)`, one
return, in-place, base name `relu`. -/
def reluSchema : LazyIrSchema :=
  ⟨r"Relu", r"relu_", r"relu", [argSelf], [], [r"at::Tensor"], true⟩

/-- An ill-formed in-place schema declaring two returns. -/
def reluBadSchema : LazyIrSchema :=
  ⟨r"Relu", r"relu_", r"relu", [argSelf], [], [r"at::Tensor", r"at::Tensor"], true⟩

/-- A two-output operation, not in-place. -/
def topkSchema : LazyIrSchema :=
  ⟨r"Topk", r"topk", r"topk", [argSelf, argAlpha], [], [r"at::Tensor", r"at::Tensor"], false⟩

/-- An operation with no graph-value argument at all. -/
def scalarOnlySchema : LazyIrSchema :=
  ⟨r"Scl", r"scl", r"scl", [argAlpha], [], [r"at::Tensor"], false⟩

/-- An operation with an optional graph value and a scalar. -/
def convSchema : LazyIrSchema :=
  ⟨r"Conv", r"conv", r"conv", [argSelf, argBias, argAlpha], [], [r"at::Tensor"], false⟩

/-- Builds an example `NativeFunction` around a schema. -/
def mkFn (schema : LazyIrSchema) (structured : Bool) (delegate : Option String) :
    NativeFunction where
  schema := schema
  structured := structured
  structured_delegate := delegate
  dispatch_args := [r"const at::Tensor & self", r"const at::Scalar & alpha"]
  sig_repr := r"<kernel signature>"
  sig_decl := fun nm => "at::Tensor " ++ nm ++ "(const at::Tensor & self)"
  lowering_body := r"return LowerBuiltin(this, loctx);"

/-- The `add` scenario as an unstructured `NativeFunction`. -/
def addFn : NativeFunction := mkFn addSchema false none

/-- A structured variant of the `add` scenario. -/
def addStructuredFn : NativeFunction := mkFn addSchema true none

/-- The in-place `relu_` scenario. -/
def reluFn : NativeFunction := mkFn reluSchema false none

/-- The ill-formed in-place scenario with two returns. -/
def reluBadFn : NativeFunction := mkFn reluBadSchema false none

/-- The two-output scenario. -/
def topkFn : NativeFunction := mkFn topkSchema false none

/-- The scenario with no graph-value argument. -/
def scalarOnlyFn : NativeFunction := mkFn scalarOnlySchema false none

/-- The optional-graph-value scenario. -/
def convFn : NativeFunction := mkFn convSchema false none

/-- An example dispatch-emitter configuration. -/
def genEx : GenLazyNativeFuncDefinition :=
  ⟨r"LazyTs", r"backendIndex", r"torch::lazy::LazyTensor"⟩

/-- An example node-class-emitter configuration. -/
def irEx : LazyIR := ⟨r"backendIndex", r"torch::lazy::TsNode"⟩

/-- An example shape-declaration-emitter configuration. -/
def shapeGenEx : GenLazyShapeInferenceDefinition :=
  ⟨r"backendIndex", r"torch::lazy::LazyTensor"⟩

/-! Shared decomposition of the emitted `node_hash` line. -/

theorem node_hash_str_decomp (schema : LazyIrSchema) :
    node_hash_str schema =
      "torch::lazy::hash_t node_hash = torch::lazy::MHash(" ++
      "static_cast<uint32_t>(at::aten::" ++ schema.aten_name ++ ")" ++
      joinTail comma_space ((schema.filtered_types false true).map (fun t => t.name)) ++ ");" := by
  simp only [node_hash_str]
  rw [pyJoin_cons]
  simp only [String.append_assoc]

/-- The property proved for claim C1 after amendment: a graph-value
argument of vector shape aborts both expression builders with the
`AssertionError` message, while a non-value argument whose tag lies
outside the closed set is silently accepted — the constructor-argument
builder falls back to the bare argument name and the bridge-value builder
returns no expression at all. -/
def fail_fast_prop (arg : NamedCType) (schema : LazyIrSchema) : Prop :=
  (node_ctor_arg_rvalue_string arg schema = Except.error msg_todo ∧
   lazy_value_string_from_optionals arg = Except.error msg_todo) ∧
  (∀ (arg2 : NamedCType) (schema2 : LazyIrSchema), isValueType arg2.type = false →
    inClosedTagSet arg2.type = false →
    node_ctor_arg_rvalue_string arg2 schema2 = Except.ok arg2.name ∧
    lazy_value_string_from_optionals arg2 = Except.ok none)

/-- C1 (counterexample): a scalar argument of nested-vector shape lies
outside the closed tag set, yet the constructor-argument expression
builder does not fail — it silently returns the bare argument name, so
the claimed universal fail-fast is false as stated. -/
theorem C1_counterexample :
    inClosedTagSet argNested.type = false ∧
    isValueType argNested.type = false ∧
    node_ctor_arg_rvalue_string argNested schemaEmpty = Except.ok argNested.name ∧
    lazy_value_string_from_optionals argNested = Except.ok none :=
  ⟨rfl, rfl, rfl, rfl⟩

/-- C1 (amended): the deliberate fail-fast exists only on the graph-value
side — an argument whose type is a vector over a graph-value element makes
both expression builders abort with the shared `AssertionError` message;
for non-value arguments no type shape aborts: outside the recognized
vector forms the constructor-argument builder emits the bare argument name
and the bridge-value builder produces no expression. -/
theorem C1_value_vector_fail_fast (arg : NamedCType) (schema : LazyIrSchema) (e : CType)
    (harg : arg.type = CType.vectorCT e) (hval : isValueType e = true) :
    fail_fast_prop arg schema := by
  constructor
  · obtain ⟨n, ty⟩ := arg
    simp only at harg
    subst harg
    refine ⟨?_, ?_⟩
    · simp [node_ctor_arg_rvalue_string, isValueType, hval]
    · simp [lazy_value_string_from_optionals, isValueType, hval]
  · intro arg2 schema2 hv hcs
    obtain ⟨n2, ty2⟩ := arg2
    simp only at hv hcs ⊢
    match ty2, hv, hcs with
    | .baseCT t, hv, hcs => simp [inClosedTagSet] at hcs
    | .optionalCT (.baseCT t), hv, hcs => simp [inClosedTagSet] at hcs
    | .optionalCT (.optionalCT e2), hv, hcs =>
        exact ⟨by simp [node_ctor_arg_rvalue_string, hv],
               by simp [lazy_value_string_from_optionals, hv]⟩
    | .optionalCT (.vectorCT (.baseCT t)), hv, hcs => simp [inClosedTagSet] at hcs
    | .optionalCT (.vectorCT (.optionalCT e2)), hv, hcs =>
        exact ⟨by simp [node_ctor_arg_rvalue_string, hv],
               by simp [lazy_value_string_from_optionals, hv]⟩
    | .optionalCT (.vectorCT (.vectorCT e2)), hv, hcs =>
        exact ⟨by simp [node_ctor_arg_rvalue_string, hv],
               by simp [lazy_value_string_from_optionals, hv]⟩
    | .vectorCT (.baseCT t), hv, hcs => simp [inClosedTagSet] at hcs
    | .vectorCT (.optionalCT e2), hv, hcs =>
        exact ⟨by simp [node_ctor_arg_rvalue_string, hv],
               by simp [lazy_value_string_from_optionals, hv]⟩
    | .vectorCT (.vectorCT e2), hv, hcs =>
        exact ⟨by simp [node_ctor_arg_rvalue_string, hv],
               by simp [lazy_value_string_from_optionals, hv]⟩

/-- C1 (witness): the amended fail-fast theorem applied to a concrete
vector-of-graph-values argument. -/
theorem C1_value_vector_fail_fast_witness :
    (argValueVec.type = CType.vectorCT (CType.baseCT valueT) ∧
     isValueType (CType.baseCT valueT) = true) ∧
    fail_fast_prop argValueVec schemaEmpty :=
  ⟨⟨rfl, rfl⟩,
   C1_value_vector_fail_fast argValueVec schemaEmpty (CType.baseCT valueT) rfl rfl⟩

/-- C10: operator-identity resolution.  For an operator outside the fixed
missing-interned-symbol set, the node class's `aten_symbol` is the direct
interned form `at::aten::<name>`; for an operator inside the set (only
`sigmoid_backward`) it is the string-based `c10::Symbol::fromQualString`
lookup, which differs from the direct form.  The dispatch function's
`node_hash`, by contrast, always references the direct interned form. -/
theorem C10_operator_identity (schema : LazyIrSchema) :
    (missing_interned_strings.contains schema.aten_name = false →
      aten_symbol schema = "at::aten::" ++ schema.aten_name) ∧
    (missing_interned_strings.contains schema.aten_name = true →
      schema.aten_name = r"sigmoid_backward" ∧
      aten_symbol schema = "c10::Symbol::fromQualString(\"aten::sigmoid_backward\")" ∧
      aten_symbol schema ≠ "at::aten::" ++ schema.aten_name) ∧
    node_hash_str schema =
      "torch::lazy::hash_t node_hash = torch::lazy::MHash(" ++
      "static_cast<uint32_t>(at::aten::" ++ schema.aten_name ++ ")" ++
      joinTail comma_space ((schema.filtered_types false true).map (fun t => t.name)) ++ ");" := by
  refine ⟨?_, ?_, node_hash_str_decomp schema⟩
  · intro hc
    simp only [aten_symbol]
    rw [hc]
    simp
  · intro hc
    have hname : schema.aten_name = r"sigmoid_backward" := by
      simpa [missing_interned_strings] using hc
    refine ⟨hname, ?_, ?_⟩
    · simp only [aten_symbol]
      rw [hc, hname]
      simp
    · simp only [aten_symbol]
      rw [hc, hname]
      simp

/-- C10 (witness): the identity theorem applied to `sigmoid_backward`
(inside the exception set) and to `add` (outside it). -/
theorem C10_operator_identity_witness :
    (missing_interned_strings.contains sigmoidSchema.aten_name = true ∧
     sigmoidSchema.aten_name = r"sigmoid_backward" ∧
     aten_symbol sigmoidSchema = "c10::Symbol::fromQualString(\"aten::sigmoid_backward\")" ∧
     aten_symbol sigmoidSchema ≠ "at::aten::" ++ sigmoidSchema.aten_name) ∧
    (missing_interned_strings.contains addSchema.aten_name = false ∧
     aten_symbol addSchema = "at::aten::" ++ addSchema.aten_name) :=
  ⟨⟨rfl, (C10_operator_identity sigmoidSchema).2.1 rfl⟩,
   ⟨rfl, (C10_operator_identity addSchema).1 rfl⟩⟩

/-- Leading literal of the emitted `dag_hash` line. -/
def dag_hash_head : String := "torch::lazy::hash_t dag_hash = torch::lazy::OperandHashes(\x7b"

/-- Trailing literal of the emitted `dag_hash` line. -/
def dag_hash_close : String := "\x7d, node_hash);"

/-- The `dag_hash` line the dispatch emitter actually produces for
`wrappedSchema`: the promoted scalar `other` is omitted. -/
def dagWrappedEmitted : String :=
  "torch::lazy::hash_t dag_hash = torch::lazy::OperandHashes(\x7blazy_self.GetIrValue()\x7d, node_hash);"

/-- The `dag_hash` line claim C2's wording demands for `wrappedSchema`:
the bridge-value form of every graph-value operand, including the promoted
scalar `other`. -/
def dagWrappedAll : String :=
  "torch::lazy::hash_t dag_hash = torch::lazy::OperandHashes(\x7blazy_self.GetIrValue(), lazy_other.GetIrValue()\x7d, node_hash);"

/-- Expected `dag_hash` line for graph values declared `self`, `other`. -/
def dagValuesSOStr : String :=
  "torch::lazy::hash_t dag_hash = torch::lazy::OperandHashes(\x7blazy_self.GetIrValue(), lazy_other.GetIrValue()\x7d, node_hash);"

/-- Expected `dag_hash` line for graph values declared `other`, `self`. -/
def dagValuesOSStr : String :=
  "torch::lazy::hash_t dag_hash = torch::lazy::OperandHashes(\x7blazy_other.GetIrValue(), lazy_self.GetIrValue()\x7d, node_hash);"

/-- C2 (counterexample): for a schema with a promoted (wrapped) scalar
graph-value operand, the emitted `dag_hash` omits that operand's
bridge-value form, so it does not mix "every graph-value operand" as the
claim states. -/
theorem C2_counterexample :
    wrappedSchema.filtered_types true false = [argSelf, argOther] ∧
    dag_hash_str wrappedSchema = Except.ok dagWrappedEmitted ∧
    dag_hash_all_operands wrappedSchema = Except.ok dagWrappedAll ∧
    dagWrappedEmitted ≠ dagWrappedAll :=
  ⟨rfl, rfl, rfl, by decide⟩

/-- C2 (amended): the emitted `node_hash` mixes the interned operator
identity with every scalar argument in declaration order, and the emitted
`dag_hash` mixes `node_hash` with the bridge-value form of every
non-promoted graph-value operand (those not in `wrapped_scalar_names`) in
declaration order; reordering either argument list changes the emitted
hash expression. -/
theorem C2_hash_order :
    (∀ schema : LazyIrSchema, node_hash_str schema =
      "torch::lazy::hash_t node_hash = torch::lazy::MHash(" ++
      "static_cast<uint32_t>(at::aten::" ++ schema.aten_name ++ ")" ++
      joinTail comma_space ((schema.filtered_types false true).map (fun t => t.name)) ++ ");") ∧
    (∀ (schema : LazyIrSchema) (iv : String) (ivs : List String),
      dag_ir_values schema = Except.ok (iv :: ivs) →
      dag_hash_str schema =
        Except.ok (dag_hash_head ++ iv ++ joinTail comma_space ivs ++ dag_hash_close)) ∧
    node_hash_str schemaScalarsAB ≠ node_hash_str schemaScalarsBA ∧
    dag_hash_str schemaValuesSO ≠ dag_hash_str schemaValuesOS := by
  refine ⟨node_hash_str_decomp, ?_, ?_, ?_⟩
  · intro schema iv ivs h
    simp only [dag_hash_str, h, Except.map, dag_hash_head, dag_hash_close]
    rw [pyJoin_cons]
    simp only [String.append_assoc]
  · decide
  · rw [show dag_hash_str schemaValuesSO = Except.ok dagValuesSOStr from rfl]
    rw [show dag_hash_str schemaValuesOS = Except.ok dagValuesOSStr from rfl]
    simp [dagValuesSOStr, dagValuesOSStr]

/-- C2 (witness): the dag-hash decomposition applied to the `add`
scenario, whose non-promoted graph values are `self` then `other`. -/
theorem C2_hash_order_witness :
    dag_ir_values addSchema =
      Except.ok ((r"lazy_self.GetIrValue()") :: [(r"lazy_other.GetIrValue()")]) ∧
    dag_hash_str addSchema =
      Except.ok (dag_hash_head ++ (r"lazy_self.GetIrValue()") ++
        joinTail comma_space [(r"lazy_other.GetIrValue()")] ++ dag_hash_close) :=
  ⟨rfl,
   C2_hash_order.2.1 addSchema (r"lazy_self.GetIrValue()") [(r"lazy_other.GetIrValue()")] rfl⟩

/-- The property proved for claim C3: for an in-place operation the
dispatch emitter aborts whenever the declared return count is not exactly
one, and any successful emission uses the in-place bridge — built on the
first value-type argument, with no tensor-from-node construction — inside
the assembled function text. -/
def inplace_bridge_prop (g : GenLazyNativeFuncDefinition) (f : NativeFunction) : Prop :=
  (f.schema.returns.length ≠ 1 → ∀ out, g.call f ≠ Except.ok out) ∧
  (∀ out, g.call f = Except.ok out →
    ∃ first rest ltd nci dh,
      f.schema.filtered_types true false = first :: rest ∧
      f.schema.returns.length = 1 ∧
      lazy_tensor_decls (f.schema.filtered_types true false) g.tensor_class f.schema =
        Except.ok ltd ∧
      node_ctor_inputs f.schema = Except.ok nci ∧
      dag_hash_str f.schema = Except.ok dh ∧
      out = [emitted_text g f ltd nci dh (inplace_bridge first.name)] ∧
      inplace_bridge first.name =
        "lazy_" ++ first.name ++ ".SetInPlaceIrValue(node);\n        auto& result = " ++
        first.name ++ ";")

/-- C3: for every in-place operation the dispatch emitter asserts exactly
one declared return (aborting otherwise), and the emitted bridge calls
`SetInPlaceIrValue` on the first value-type argument's handle and returns
that same argument by reference, never constructing a new tensor handle
from the node. -/
theorem C3_inplace_dispatch (g : GenLazyNativeFuncDefinition) (f : NativeFunction)
    (h : f.schema.inplace = true) : inplace_bridge_prop g f := by
  constructor
  · intro hr out hok
    cases h1 : lazy_tensor_decls (f.schema.filtered_types true false) g.tensor_class f.schema with
    | error e =>
        simp [GenLazyNativeFuncDefinition.call, h1, Bind.bind, Except.bind] at hok
    | ok ltd =>
        cases h2 : node_ctor_inputs f.schema with
        | error e =>
            simp [GenLazyNativeFuncDefinition.call, h1, h2, Bind.bind, Except.bind] at hok
        | ok nci =>
            cases h3 : dag_hash_str f.schema with
            | error e =>
                simp [GenLazyNativeFuncDefinition.call, h1, h2, h3, Bind.bind, Except.bind] at hok
            | ok dh =>
                cases hvt : f.schema.filtered_types true false with
                | nil =>
                    rw [hvt] at h1
                    simp [GenLazyNativeFuncDefinition.call, h1, h2, h3, hvt,
                          Bind.bind, Except.bind] at hok
                | cons first rest =>
                    rw [hvt] at h1
                    simp [GenLazyNativeFuncDefinition.call, h1, h2, h3, hvt, bridge_for,
                          h, hr, Bind.bind, Except.bind] at hok
  · intro out hok
    cases h1 : lazy_tensor_decls (f.schema.filtered_types true false) g.tensor_class f.schema with
    | error e =>
        simp [GenLazyNativeFuncDefinition.call, h1, Bind.bind, Except.bind] at hok
    | ok ltd =>
        cases h2 : node_ctor_inputs f.schema with
        | error e =>
            simp [GenLazyNativeFuncDefinition.call, h1, h2, Bind.bind, Except.bind] at hok
        | ok nci =>
            cases h3 : dag_hash_str f.schema with
            | error e =>
                simp [GenLazyNativeFuncDefinition.call, h1, h2, h3, Bind.bind, Except.bind] at hok
            | ok dh =>
                cases hvt : f.schema.filtered_types true false with
                | nil =>
                    rw [hvt] at h1
                    simp [GenLazyNativeFuncDefinition.call, h1, h2, h3, hvt,
                          Bind.bind, Except.bind] at hok
                | cons first rest =>
                    rw [hvt] at h1
                    by_cases hlen : f.schema.returns.length = 1
                    · simp [GenLazyNativeFuncDefinition.call, h1, h2, h3, hvt, bridge_for,
                            h, hlen, Bind.bind, Except.bind] at hok
                      refine ⟨first, rest, ltd, nci, dh, rfl, hlen, rfl, rfl, rfl, ?_, rfl⟩
                      rw [← hok]
                    · simp [GenLazyNativeFuncDefinition.call, h1, h2, h3, hvt, bridge_for,
                            h, hlen, Bind.bind, Except.bind] at hok

/-- C3 (witness): the in-place theorem applied to the `relu_` scenario. -/
theorem C3_inplace_dispatch_witness :
    reluFn.schema.inplace = true ∧ inplace_bridge_prop genEx reluFn :=
  ⟨rfl, C3_inplace_dispatch genEx reluFn rfl⟩

/-- The property proved for claim C6: a successful emission for a
non-in-place operation with more than one declared return uses the
multi-output bridge, whose loop runs `i` from `0` while `i <
returns_length` and whose tuple type is parameterized by
`returns_length`. -/
def multi_bridge_prop (g : GenLazyNativeFuncDefinition) (f : NativeFunction) : Prop :=
  ∀ out, g.call f = Except.ok out →
    ∃ first rest ltd nci dh,
      f.schema.filtered_types true false = first :: rest ∧
      lazy_tensor_decls (f.schema.filtered_types true false) g.tensor_class f.schema =
        Except.ok ltd ∧
      node_ctor_inputs f.schema = Except.ok nci ∧
      dag_hash_str f.schema = Except.ok dh ∧
      out = [emitted_text g f ltd nci dh
        (multi_bridge g.tensor_class f.schema.returns.length first.name)] ∧
      multi_bridge g.tensor_class f.schema.returns.length first.name =
        "std::vector<" ++ g.tensor_class ++ "> lazy_tensors;\n        for (int i = 0; i < " ++
        toString f.schema.returns.length ++
        "; i++) \x7b\n            lazy_tensors.push_back(torch::lazy::LazyTensor::Create(torch::lazy::Value(node, i), lazy_" ++
        first.name ++
        ".GetDevice()));\n        \x7d\n        auto result = torch::lazy::TupleAtenFromLtcTensors<" ++
        toString f.schema.returns.length ++ ">(lazy_tensors);"

/-- C6: for every non-in-place operation with more than one declared
return, the emitted bridge is the loop form — one tracked handle per
output index `0..returns_length-1` in declaration order — packed into the
tuple type parameterized by `returns_length`. -/
theorem C6_multi_output_bridge (g : GenLazyNativeFuncDefinition) (f : NativeFunction)
    (hip : f.schema.inplace = false) (hlen : 1 < f.schema.returns.length) :
    multi_bridge_prop g f := by
  intro out hok
  cases h1 : lazy_tensor_decls (f.schema.filtered_types true false) g.tensor_class f.schema with
  | error e =>
      simp [GenLazyNativeFuncDefinition.call, h1, Bind.bind, Except.bind] at hok
  | ok ltd =>
      cases h2 : node_ctor_inputs f.schema with
      | error e =>
          simp [GenLazyNativeFuncDefinition.call, h1, h2, Bind.bind, Except.bind] at hok
      | ok nci =>
          cases h3 : dag_hash_str f.schema with
          | error e =>
              simp [GenLazyNativeFuncDefinition.call, h1, h2, h3, Bind.bind, Except.bind] at hok
          | ok dh =>
              cases hvt : f.schema.filtered_types true false with
              | nil =>
                  rw [hvt] at h1
                  simp [GenLazyNativeFuncDefinition.call, h1, h2, h3, hvt,
                        Bind.bind, Except.bind] at hok
              | cons first rest =>
                  rw [hvt] at h1
                  simp [GenLazyNativeFuncDefinition.call, h1, h2, h3, hvt, bridge_for,
                        hip, hlen, Bind.bind, Except.bind] at hok
                  refine ⟨first, rest, ltd, nci, dh, rfl, rfl, rfl, rfl, ?_, rfl⟩
                  rw [← hok]

/-- C6 (witness): the multi-output theorem applied to the two-output
`topk` scenario. -/
theorem C6_multi_output_bridge_witness :
    (topkFn.schema.inplace = false ∧ 1 < topkFn.schema.returns.length) ∧
    multi_bridge_prop genEx topkFn :=
  ⟨⟨rfl, by decide⟩, C6_multi_output_bridge genEx topkFn rfl (by decide)⟩

/-- The always-emitted cache prologue: fetch the global shape cache, look
up `dag_hash`, and open the miss branch guarded by `cached_shapes ==
nullptr`. -/
def cache_lookup_open : String :=
  "\n        auto shape_cache = torch::lazy::GetShapeCache();\n        auto cached_shapes = shape_cache->Get(dag_hash);\n        if (cached_shapes == nullptr) \x7b"

/-- The always-emitted cache epilogue: close the miss branch, dereference
the cached list, and assert its length equals the declared return count. -/
def cache_close_and_assert (n : Nat) : String :=
  "\n        \x7d\n        auto& shapes = *cached_shapes;\n        TORCH_INTERNAL_ASSERT(shapes.size() == " ++
  toString n ++ ");\n"

/-- The dispatch-function text preceding the shape-inference wrapper. -/
def dispatch_before_shape (g : GenLazyNativeFuncDefinition) (func : NativeFunction)
    (ltd dh : String) : String :=
  "    " ++ func.sig_decl (g.class_method_name ++ "::" ++ func.schema.aten_name) ++
  " \x7b\n        TORCH_LAZY_FN_COUNTER(\"lazy::\");\n        " ++
  get_device_str func.schema ++ "\n        " ++
  ltd ++ "\n        " ++
  node_hash_str func.schema ++ "\n        " ++ dh ++ "\n        "

/-- The dispatch-function text following the shape-inference wrapper. -/
def dispatch_after_shape (func : NativeFunction) (nci b : String) : String :=
  "\n        " ++ node_str func.schema nci ++ "\n        " ++ b ++
  "\n        return result;\n    \x7d;\n\n    "

/-- C4: the emitted shape-inference wrapper always looks `dag_hash` up in
the global shape cache, places the compute-and-insert body only inside the
`cached_shapes == nullptr` miss branch, and after the lookup always emits
the assertion that the retrieved shape list's length equals the declared
return count; the dispatch emitter instantiates the wrapper at
`schema.returns.length` and at the full filtered argument list. -/
theorem C4_shape_cache_wrapper :
    (∀ (func : NativeFunction) (schema : LazyIrSchema) (returns_length : Nat)
       (all_types : List NamedCType),
      cached_shape_inference func schema returns_length all_types =
        cache_lookup_open ++
        shapes_body_str func schema returns_length all_types ++
        cache_close_and_assert returns_length) ∧
    (∀ (g : GenLazyNativeFuncDefinition) (func : NativeFunction) (ltd nci dh b : String),
      emitted_text g func ltd nci dh b =
        dispatch_before_shape g func ltd dh ++
        cached_shape_inference func func.schema func.schema.returns.length
          (func.schema.filtered_types true true) ++
        dispatch_after_shape func nci b) := by
  constructor
  · intro func schema n ts
    simp only [cached_shape_inference, cache_lookup_open, cache_close_and_assert,
               String.append_assoc]
  · intro g func ltd nci dh b
    simp only [emitted_text, dispatch_before_shape, dispatch_after_shape,
               String.append_assoc]

/-- C5: on any successful run of the shape-inference-declaration emitter,
a structured operation (or one delegating to a structured kernel) yields
an empty fragment list, and any other operation yields exactly one forward
declaration `compute_shape_<base_name>(<dispatcher-style arguments>);`
named with the base (non-in-place) operator name. -/
theorem C5_shape_decl_routing (d : GenLazyShapeInferenceDefinition) (f : NativeFunction)
    (out : List String) (h : d.call f = Except.ok out) :
    out = if f.structured || f.structured_delegate.isSome then ([] : List String)
      else ["std::vector<Shape> compute_shape_" ++ f.schema.base_name ++ "(" ++
            pyJoin comma_space f.dispatch_args ++ ");"] := by
  cases h1 : lazy_tensor_decls (f.schema.filtered_types true false) d.tensor_class f.schema with
  | error e =>
      simp [GenLazyShapeInferenceDefinition.call, h1, Bind.bind, Except.bind] at h
  | ok ltd =>
      cases h2 : node_ctor_inputs f.schema with
      | error e =>
          simp [GenLazyShapeInferenceDefinition.call, h1, h2, Bind.bind, Except.bind] at h
      | ok nci =>
          cases hs : f.structured with
          | true =>
              simp [GenLazyShapeInferenceDefinition.call, h1, h2, hs,
                    Bind.bind, Except.bind] at h
              simp [hs, ← h]
          | false =>
              cases hd : f.structured_delegate with
              | none =>
                  simp [GenLazyShapeInferenceDefinition.call, h1, h2, hs, hd,
                        ComputeShapeSignature.shape_decl, Bind.bind, Except.bind] at h
                  simp [hs, hd, ← h, ComputeShapeSignature.shape_decl]
                  rw [String.append_assoc]
                  rfl
              | some dele =>
                  simp [GenLazyShapeInferenceDefinition.call, h1, h2, hs, hd,
                        Bind.bind, Except.bind] at h
                  simp [hs, hd, ← h]

/-- The single fragment the declaration emitter produces for the
unstructured `add` scenario. -/
def addShapeDeclOut : List String :=
  ["std::vector<Shape> compute_shape_add(const at::Tensor & self, const at::Scalar & alpha);"]

/-- C5 (witness): the routing theorem applied to the unstructured `add`
scenario, which yields exactly one `compute_shape_add` declaration. -/
theorem C5_shape_decl_routing_witness :
    shapeGenEx.call addFn = Except.ok addShapeDeclOut ∧
    addShapeDeclOut =
      (if addFn.structured || addFn.structured_delegate.isSome then ([] : List String)
       else ["std::vector<Shape> compute_shape_" ++ addFn.schema.base_name ++ "(" ++
             pyJoin comma_space addFn.dispatch_args ++ ");"]) :=
  ⟨rfl, C5_shape_decl_routing shapeGenEx addFn addShapeDeclOut rfl⟩

/-- C7: an operation with zero graph-value arguments makes the dispatch
emitter abort with the missing-value-type assertion message before
producing any output. -/
theorem C7_no_value_args_abort (g : GenLazyNativeFuncDefinition) (f : NativeFunction)
    (h : f.schema.filtered_types true false = []) :
    g.call f = Except.error ("Only supporting tensor ops so far, none found in " ++ f.sig_repr) := by
  have hall : ∀ a ∈ f.schema.args, isValueType a.type = false := by
    intro a ha
    cases hv : isValueType a.type with
    | false => rfl
    | true =>
        exfalso
        have hmem : a ∈ f.schema.filtered_types true false := by
          unfold LazyIrSchema.filtered_types
          rw [List.mem_filter]
          exact ⟨ha, by simp [hv]⟩
        rw [h] at hmem
        exact absurd hmem (List.not_mem_nil a)
  have hscalar : ∀ a ∈ f.schema.filtered_types true true,
      ∃ s, node_ctor_arg_rvalue_string a f.schema = Except.ok s := by
    intro a ha
    have ha' : a ∈ f.schema.args := by
      unfold LazyIrSchema.filtered_types at ha
      exact (List.mem_filter.mp ha).1
    exact node_ctor_arg_scalar_ok a f.schema (hall a ha')
  obtain ⟨vals, hvals⟩ :=
    mapExcept_exists_ok (fun arg => node_ctor_arg_rvalue_string arg f.schema)
      (f.schema.filtered_types true true) hscalar
  have hnci : node_ctor_inputs f.schema =
      Except.ok (pyJoin node_ctor_sep (vals ++ [r"node_hash", r"dag_hash"])) := by
    simp [node_ctor_inputs, hvals, Bind.bind, Except.bind]
  have hltd : lazy_tensor_decls [] g.tensor_class f.schema =
      Except.ok (pyJoin nl4 []) := rfl
  have hdag : dag_hash_str f.schema =
      Except.ok (dag_hash_head ++ pyJoin comma_space [] ++ dag_hash_close) := by
    simp [dag_hash_str, dag_ir_values, h, mapExcept, dag_hash_head, dag_hash_close,
          Bind.bind, Except.bind, Except.map]
  simp [GenLazyNativeFuncDefinition.call, hltd, hnci, hdag, h, Bind.bind, Except.bind]

/-- C7 (witness): the abort theorem applied to a concrete operation whose
only argument is a scalar. -/
theorem C7_no_value_args_abort_witness :
    scalarOnlyFn.schema.filtered_types true false = [] ∧
    genEx.call scalarOnlyFn =
      Except.error ("Only supporting tensor ops so far, none found in " ++
        scalarOnlyFn.sig_repr) :=
  ⟨rfl, C7_no_value_args_abort genEx scalarOnlyFn rfl⟩

/-- The node-class text reassembled from a given base-constructor argument
list `bcva` and optional-value name list `opts`: the constructor forwards
`bcva` (inside braces) to the base class together with the operator
identity, the declared output count and both hashes; scalar members are
initialized in the member-initializer list after the base call; the
`has_<name>` presence flags are assigned inside the constructor body,
between the braces that follow the initializer list. -/
def node_class_text (ir : LazyIR) (f : NativeFunction) (bcva opts : List String) : String :=
  let schema := f.schema
  let all_types := schema.filtered_types true true
  let scalar_types := schema.filtered_types false true
  let ctor_hash_args := "torch::lazy::hash_t node_hash, torch::lazy::hash_t dag_hash"
  let node_ctor_args := pyJoin comma_space
    ((all_types.map (fun i => "const " ++ i.type.cpp_type ++ "& " ++ i.name)) ++ [ctor_hash_args])
  let scalar_initializers := pyJoin init_sep
    (scalar_types.map (fun t => t.name ++ "(" ++ t.name ++ ")"))
  let comma_nl := ",\n"
  let comma_if_scalar_initializers := if 0 < scalar_initializers.length then comma_nl else ""
  let scalar_decls := pyJoin nl2
    (scalar_types.map (fun t => t.type.cpp_type ++ " " ++ t.name ++ ";"))
  let base_ctor_value_args := pyJoin comma_space bcva
  let has_optional_decls := pyJoin nl2 (opts.map (fun v => "bool has_" ++ v ++ ": 1;"))
  let has_optional_defs := pyJoin nl4 (opts.map (fun v => "has_" ++ v ++ " = !!" ++ v ++ ";"))
  let members_to_string_str := pyJoin nl4 (scalar_types.map member_to_string)
  "class " ++ schema.node_name ++ " : public " ++ ir.node_base ++ " \x7b\n public:\n  " ++
  schema.node_name ++ "(" ++ node_ctor_args ++ ", std::vector<Shape>&& shapes)\n      : " ++
  ir.node_base ++ "(torch::lazy::OpKind(" ++ aten_symbol schema ++ "),\n              \x7b" ++
  base_ctor_value_args ++ "\x7d, std::move(shapes),\n              /* num_outputs */ " ++
  toString schema.returns.length ++ ",\n              node_hash,\n              dag_hash)" ++
  comma_if_scalar_initializers ++ "\n        " ++ scalar_initializers ++
  "\n\n  \x7b\n    " ++ has_optional_defs ++
  "\n  \x7d\n\n  std::string ToString() const override \x7b\n    std::stringstream ss;\n    ss << TsNode::ToString();\n    " ++
  members_to_string_str ++
  "\n    return ss.str();\n  \x7d\n\n  torch::lazy::TSOpVector Lower(std::shared_ptr<torch::jit::GraphFunction> function,\n                   torch::lazy::TSLoweringContext* loctx) const override \x7b\n    " ++
  f.lowering_body ++ "\n  \x7d\n\n  " ++
  scalar_decls ++ "\n  " ++ has_optional_decls ++ "\n\n\x7d;\n\n"

/-- The property proved for claim C8: any node class the emitter produces
is `node_class_text` applied to the base-constructor forms of the
graph-value arguments (bare name for plain values, `value_or(kNullValue)`
for optional values, in declaration order) and to the names of the
optional graph-value arguments. -/
def node_class_prop (ir : LazyIR) (f : NativeFunction) : Prop :=
  ∀ out, ir.gen f = Except.ok out →
    ∃ bcva opts,
      base_ctor_and_optionals (f.schema.filtered_types true false) = Except.ok (bcva, opts) ∧
      bcva = (f.schema.filtered_types true false).map base_ctor_form ∧
      opts = ((f.schema.filtered_types true false).filter is_optional_type).map NamedCType.name ∧
      out = [node_class_text ir f bcva opts]

/-- C8: the emitted node-class constructor forwards each plain value
argument directly and each optional value argument as
`value_or(kNullValue)` to the base class together with the operator
identity and both hashes, initializes every scalar member in the
member-initializer list, and assigns the `has_<name>` presence flag of
every optional value argument inside the constructor body, not in the
initializer list. -/
theorem C8_node_class_ctor (ir : LazyIR) (f : NativeFunction) : node_class_prop ir f := by
  intro out h
  cases hbo : base_ctor_and_optionals (f.schema.filtered_types true false) with
  | error e =>
      simp [LazyIR.gen, hbo, Bind.bind, Except.bind] at h
  | ok p =>
      obtain ⟨bcva, opts⟩ := p
      have hchar := base_ctor_and_optionals_ok (f.schema.filtered_types true false) bcva opts hbo
      refine ⟨bcva, opts, rfl, hchar.1, hchar.2, ?_⟩
      simp [LazyIR.gen, hbo, Bind.bind, Except.bind] at h
      rw [← h]
      rfl

/-- C8 (witness): the node-class theorem applied to a concrete operation
with a plain value, an optional value and a scalar argument; the emitter
succeeds on it. -/
theorem C8_node_class_ctor_witness :
    (∃ out, irEx.gen convFn = Except.ok out) ∧ node_class_prop irEx convFn :=
  ⟨⟨[node_class_text irEx convFn
      [(r"self"), (r"bias.value_or(kNullValue)")] [(r"bias")]], rfl⟩,
   C8_node_class_ctor irEx convFn⟩

/-- C9: both emitters are pure functions of their input — mapping them
twice over any unchanged list of Schema Views yields byte-identical
output, and equal inputs always produce equal output texts. -/
theorem C9_deterministic_emitters :
    ∀ (ir : LazyIR) (g : GenLazyNativeFuncDefinition) (d : GenLazyShapeInferenceDefinition)
      (fs : List NativeFunction) (f1 f2 : NativeFunction),
      fs.map ir.gen = fs.map ir.gen ∧
      fs.map g.call = fs.map g.call ∧
      fs.map d.call = fs.map d.call ∧
      (f1 = f2 → ir.gen f1 = ir.gen f2 ∧ g.call f1 = g.call f2) :=
  fun _ _ _ _ _ _ => ⟨rfl, rfl, rfl, fun he => by rw [he]; exact ⟨rfl, rfl⟩⟩

/-- C9 (witness): determinism applied at a concrete emitter configuration
and Schema View list. -/
theorem C9_deterministic_emitters_witness :
    addFn = addFn ∧
    (irEx.gen addFn = irEx.gen addFn ∧ genEx.call addFn = genEx.call addFn) :=
  ⟨rfl,
   (C9_deterministic_emitters irEx genEx shapeGenEx [addFn, reluFn] addFn addFn).2.2.2 rfl⟩

end LazyIrGen
